import Mathlib

/-!
Verification of the andromeda voice assistant core against its specification.

Shallow embedding of the Python sources:
* state_machine.py : assistant states, transition table, transition_to, run loop step
* audio_capture.py : route modes, ring/recording buffers, the audio callback
* vad.py           : energy-gated voice activity detector state machine
* stop_word.py     : stop-word listener latch
* wake_word.py     : wake word detector method surface
* main.py          : interrupt monitor and the PROCESSING handler's LLM branch
* agent.py         : streaming sentence/clause segmentation
* tts.py           : bounded FIFO-evicting synthesis cache

Time is modelled with exact rationals, audio frames with integer sample
lists; machine floats of the source are modelled as exact rationals.
-/

/- ============================================================
   state_machine.py
   ============================================================ -/

/- AssistantState enum (state_machine.py lines 12-17). -/
inductive AssistantState where
  | IDLE
  | LISTENING
  | PROCESSING
  | SPEAKING
  | ERROR
deriving DecidableEq, Repr

/- The TRANSITIONS table (state_machine.py lines 24-30). -/
def TRANSITIONS : AssistantState → List AssistantState
  | .IDLE => [.LISTENING]
  | .LISTENING => [.PROCESSING, .IDLE, .ERROR]
  | .PROCESSING => [.SPEAKING, .IDLE, .ERROR]
  | .SPEAKING => [.IDLE, .LISTENING, .ERROR]
  | .ERROR => [.IDLE]

/- StateMachine.transition_to (state_machine.py lines 59-73).
Returns the new current state and whether the registered transition
observers were invoked (the code notifies every callback exactly when the
transition is valid; an invalid transition only logs and returns). -/
def transitionTo (s t : AssistantState) : AssistantState × Bool :=
  if t ∈ TRANSITIONS s then (t, true) else (s, false)

/- Result of awaiting a state handler inside StateMachine.run
(state_machine.py lines 87-95): it returns a next state, raises an
exception, or is cancelled. -/
inductive HandlerResult where
  | ret : AssistantState → HandlerResult
  | raised
  | cancelled
deriving DecidableEq, Repr

/- Whether the run loop keeps iterating after one handler invocation. -/
inductive LoopControl where
  | continueLoop
  | terminate
deriving DecidableEq, Repr

/- One iteration of StateMachine.run (state_machine.py lines 87-95) for a
state with a registered handler: a returned state is validated through
transition_to; a raised exception (other than CancelledError) is caught
and routed through transition_to(ERROR); cancellation re-raises and ends
the loop. -/
def runStep (s : AssistantState) (r : HandlerResult) : AssistantState × LoopControl :=
  match r with
  | .ret t => ((transitionTo s t).1, .continueLoop)
  | .raised => ((transitionTo s .ERROR).1, .continueLoop)
  | .cancelled => (s, .terminate)

/- ============================================================
   audio_capture.py
   ============================================================ -/

/- AudioRouteMode enum (audio_capture.py lines 16-19). -/
inductive AudioRouteMode where
  | NORMAL
  | MUTED
  | STOP_ONLY
deriving DecidableEq, Repr

/- An audio frame: the int16 PCM samples of one fixed-size chunk. -/
abbrev Frame := List Int

/- Which listener set the callback dispatched the frame to. -/
inductive Dispatch where
  | dropped
  | stopListeners
  | allListeners
deriving DecidableEq, Repr

/- The mutable capture state touched by AudioCapture._audio_callback:
ring buffer, recording buffer, is_recording flag and route mode
(audio_capture.py lines 30-43). -/
structure CaptureState where
  ringBuffer : List Frame
  recordingBuffer : List Frame
  isRecording : Bool
  routeMode : AudioRouteMode
deriving DecidableEq, Repr

/- Appending to a collections.deque with maxlen = cap: the new element is
appended and the oldest elements are evicted down to the capacity. -/
def pushRing (cap : Nat) (buf : List Frame) (f : Frame) : List Frame :=
  let grown := buf ++ [f]
  if grown.length > cap then grown.drop (grown.length - cap) else grown

/- AudioCapture._audio_callback (audio_capture.py lines 153-183).
MUTED returns before any buffering; otherwise the frame is appended to the
ring buffer (deque with maxlen), appended to the recording buffer when
is_recording, and then dispatched to the stop-word listener set
(STOP_ONLY) or to all general listeners (NORMAL). -/
def audioCallback (cap : Nat) (st : CaptureState) (f : Frame) : CaptureState × Dispatch :=
  if st.routeMode = AudioRouteMode.MUTED then (st, Dispatch.dropped)
  else
    let st1 : CaptureState :=
      { st with
        ringBuffer := pushRing cap st.ringBuffer f,
        recordingBuffer :=
          if st.isRecording then st.recordingBuffer ++ [f] else st.recordingBuffer }
    if st.routeMode = AudioRouteMode.STOP_ONLY then (st1, Dispatch.stopListeners)
    else (st1, Dispatch.allListeners)

/- ============================================================
   vad.py
   ============================================================ -/

/- The VAD configuration fields used by process_frame (config.py VADConfig):
silence_timeout_sec, max_recording_sec, energy_decay_rate. -/
structure VADCfg where
  silenceTimeoutSec : ℚ
  maxRecordingSec : ℚ
  energyDecayRate : ℚ
deriving DecidableEq, Repr

/- The mutable state of VoiceActivityDetector (vad.py lines 23-34):
is_active, speech_detected, last_speech_time, start_time,
energy_threshold, last_decay_time and the speech_ended latch. -/
structure VADState where
  isActive : Bool
  speechDetected : Bool
  lastSpeechTime : ℚ
  startTime : ℚ
  energyThreshold : ℚ
  lastDecayTime : ℚ
  speechEnded : Bool
deriving DecidableEq, Repr

/- VoiceActivityDetector.set_energy_threshold (vad.py lines 39-44). -/
def setEnergyThreshold (st : VADState) (now thr : ℚ) : VADState :=
  { st with energyThreshold := thr, lastDecayTime := now }

/- VoiceActivityDetector.start (vad.py lines 48-57). -/
def vadStart (st : VADState) (now : ℚ) : VADState :=
  { st with
    isActive := true, speechDetected := false, lastSpeechTime := now,
    startTime := now, lastDecayTime := now, speechEnded := false }

/- VoiceActivityDetector.stop (vad.py lines 61-64). -/
def vadStop (st : VADState) : VADState :=
  { st with isActive := false, speechEnded := true }

/- VoiceActivityDetector.process_frame (vad.py lines 68-116) for one frame.
Inputs beyond the state: the current monotonic time, the base WebRTC
classifier verdict for the frame, and the frame's RMS energy. Inactive
state is a no-op; a speech verdict is suppressed when a positive energy
threshold exceeds the frame RMS; the threshold then decays once per
elapsed whole second since the last decay; a qualifying speech frame sets
speech_detected and refreshes last_speech_time; finally the max-recording
and silence-timeout exit conditions set the speech_ended latch and
deactivate. -/
def processFrame (cfg : VADCfg) (st : VADState) (now : ℚ)
    (vadSaysSpeech : Bool) (rms : ℚ) : VADState :=
  if !st.isActive then st
  else
    let isSpeech :=
      if vadSaysSpeech ∧ 0 < st.energyThreshold then
        if rms < st.energyThreshold then false else true
      else vadSaysSpeech
    let decayed :=
      if 0 < st.energyThreshold ∧ 1 ≤ now - st.lastDecayTime then
        { st with
          energyThreshold :=
            st.energyThreshold * cfg.energyDecayRate ^ (now - st.lastDecayTime).floor.toNat,
          lastDecayTime := now }
      else st
    let upd :=
      if isSpeech then { decayed with speechDetected := true, lastSpeechTime := now }
      else decayed
    let elapsed := now - upd.startTime
    let silenceDuration := now - upd.lastSpeechTime
    if cfg.maxRecordingSec < elapsed then
      { upd with speechEnded := true, isActive := false }
    else if upd.speechDetected ∧ cfg.silenceTimeoutSec < silenceDuration then
      { upd with speechEnded := true, isActive := false }
    else upd

/- A monitoring session's frame inputs: (monotonic time, classifier verdict,
frame RMS) per frame, processed in order by the audio callback. -/
def processFrames (cfg : VADCfg) (st : VADState) (frames : List (ℚ × Bool × ℚ)) : VADState :=
  frames.foldl (fun s f => processFrame cfg s f.1 f.2.1 f.2.2) st

/- VoiceActivityDetector.had_speech (vad.py lines 124-128). -/
def hadSpeech (st : VADState) : Bool :=
  st.speechDetected

/- VoiceActivityDetector.wait_for_speech_end (vad.py lines 120-121): the
caller unblocks as soon as the speech_ended latch is set. -/
def speechEndLatch (st : VADState) : Bool :=
  st.speechEnded

/- ============================================================
   stop_word.py
   ============================================================ -/

/- The mutable state of StopWordListener (stop_word.py lines 17-25):
the detection latch, the active flag, the energy threshold and whether a
model was loaded by initialize(). -/
structure StopWordState where
  hasModel : Bool
  isActive : Bool
  detected : Bool
  energyThreshold : ℚ
deriving DecidableEq, Repr

/- StopWordListener.start (stop_word.py lines 50-59). -/
def stopWordStart (st : StopWordState) (thr : ℚ) : StopWordState :=
  { st with energyThreshold := thr, detected := false, isActive := true }

/- StopWordListener.stop (stop_word.py lines 63-65): deactivates and SETS
the detection latch to unblock any waiter. -/
def stopWordStop (st : StopWordState) : StopWordState :=
  { st with isActive := false, detected := true }

/- StopWordListener.process_frame (stop_word.py lines 69-90): no-op when
inactive or without a model; the energy gate rejects frames whose RMS is
below a positive threshold; a score above the wake threshold sets the
latch. The frame is abstracted to its RMS and to whether some model score
exceeded the configured threshold. -/
def stopWordProcessFrame (st : StopWordState) (rms : ℚ) (scoreHit : Bool) : StopWordState :=
  if !st.isActive ∨ !st.hasModel then st
  else if 0 < st.energyThreshold ∧ rms < st.energyThreshold then st
  else if scoreHit then { st with detected := true }
  else st

/- StopWordListener.wait_for_detection (stop_word.py lines 94-95): the
Event.wait returns immediately with True whenever the latch is set (and
nothing in the class ever clears the latch except start()). -/
def stopWordWaitForDetection (st : StopWordState) : Bool :=
  st.detected

/- The operations available on a StopWordListener after stop(), short of
calling start() again. -/
inductive StopWordOp where
  | stopAgain
  | frame : ℚ → Bool → StopWordOp
deriving DecidableEq, Repr

def stopWordApply (st : StopWordState) : StopWordOp → StopWordState
  | .stopAgain => stopWordStop st
  | .frame rms hit => stopWordProcessFrame st rms hit

def stopWordApplyAll (st : StopWordState) (ops : List StopWordOp) : StopWordState :=
  ops.foldl stopWordApply st

/- ============================================================
   wake_word.py / main.py : method surfaces and the interrupt monitor
   ============================================================ -/

/- The public and private methods defined on WakeWordDetector
(wake_word.py lines 16-94). -/
def wakeWordDetectorMethods : List String :=
  ["__init__", "initialize", "process_frame", "wait_for_detection", "reset", "shutdown"]

/- The methods defined on AudioCapture (audio_capture.py lines 23-200). -/
def audioCaptureMethods : List String :=
  ["__init__", "on_audio_frame", "on_stop_word_frame", "start", "stop", "mute",
   "unmute", "set_route_mode_stop_only", "start_recording", "stop_recording",
   "get_ring_buffer_audio", "calibrate_speech_energy", "_audio_callback",
   "_reduce_noise"]

/- The methods defined on StopWordListener (stop_word.py lines 15-95). -/
def stopWordListenerMethods : List String :=
  ["__init__", "initialize", "start", "stop", "process_frame", "wait_for_detection"]

/- Python attribute lookup on an object of the given class: the attribute
resolves when the class defines it, otherwise the access raises
AttributeError. -/
def getMethod (methods : List String) (name : String) : Option String :=
  if name ∈ methods then some name else none

/- Outcome of the VoiceAssistant._monitor_interrupt task
(main.py lines 378-401). -/
inductive MonitorOutcome where
  | interrupted
  | stillPolling
  | attributeError
deriving DecidableEq, Repr

/- VoiceAssistant._monitor_interrupt (main.py lines 378-401), driven by the
sequence of 0.5 s poll results of wake_word.wait_for_detection. On a
detection the monitor stops TTS playback, sets _tts_interrupted, cancels
the handed-in tasks and returns. After every 10th empty poll the code
invokes self._wake_word.reset_model_only(), which is resolved through
attribute lookup on WakeWordDetector. -/
def monitorInterrupt : List Bool → Nat → MonitorOutcome
  | [], _ => .stillPolling
  | detected :: restPolls, pollCount =>
    if detected then .interrupted
    else if (pollCount + 1) % 10 == 0 then
      match getMethod wakeWordDetectorMethods "reset_model_only" with
      | some _ => monitorInterrupt restPolls (pollCount + 1)
      | none => .attributeError
    else monitorInterrupt restPolls (pollCount + 1)

/- Observable outcome of the LLM branch of
VoiceAssistant._handle_processing (main.py lines 306-329). -/
structure ProcessingOutcome where
  nextState : AssistantState
  ttsInterrupted : Bool
  spokeApology : Bool
  monitorStarted : Bool
  playbackStopped : Bool
deriving DecidableEq, Repr

/- VoiceAssistant._process_streaming up to the point where the monitor and
TTS tasks would be created (main.py lines 349-360): it first resets the
wake word detector and then calls self._audio.monitor_only(), resolved
through attribute lookup on AudioCapture. -/
def processStreamingStart : Except String Unit :=
  match getMethod audioCaptureMethods "monitor_only" with
  | some _ => Except.ok ()
  | none => Except.error "AttributeError: monitor_only"

/- The LLM branch of VoiceAssistant._handle_processing
(main.py lines 306-329) in streaming mode, as a function of the interrupt
monitor's would-be poll results: _tts_interrupted is cleared, then
_process_streaming runs inside try/except Exception — an exception is
caught, the generic apology is spoken and the branch falls through; the
handler returns IDLE when _tts_interrupted was set and SPEAKING
otherwise. -/
def handleProcessingLLM (polls : List Bool) : ProcessingOutcome :=
  match processStreamingStart with
  | Except.error _ =>
    { nextState := AssistantState.SPEAKING, ttsInterrupted := false,
      spokeApology := true, monitorStarted := false, playbackStopped := false }
  | Except.ok _ =>
    match monitorInterrupt polls 0 with
    | MonitorOutcome.interrupted =>
      { nextState := AssistantState.IDLE, ttsInterrupted := true,
        spokeApology := false, monitorStarted := true, playbackStopped := true }
    | _ =>
      { nextState := AssistantState.SPEAKING, ttsInterrupted := false,
        spokeApology := false, monitorStarted := true, playbackStopped := false }

/- ============================================================
   agent.py : streaming sentence/clause segmentation
   ============================================================ -/

/- Python's whitespace class (regex backslash-s over str, and str.strip):
space, tab, LF, VT, FF, CR, the C1 separators, NEL, NBSP and the Unicode
space code points. -/
def isPySpace (c : Char) : Bool :=
  decide (c.toNat ∈ [32, 9, 10, 11, 12, 13, 28, 29, 30, 31, 133, 160, 5760,
      8232, 8233, 8239, 8287, 12288]
    ∨ (8192 ≤ c.toNat ∧ c.toNat ≤ 8202))

/- ASCII decimal digit (the source's digit class is Unicode-aware; the
guarded text here is Italian prose, where they coincide). -/
def isPyDigit (c : Char) : Bool :=
  decide (48 ≤ c.toNat ∧ c.toNat ≤ 57)

/- Whether the consumed text (held in reverse) ends with the given word. -/
def revEndsWith (rev : List Char) (w : List Char) : Bool :=
  rev.take w.length == w.reverse

/- The abbreviation negative lookbehinds of _ABBREV (agent.py line 20),
all anchored at the split position. -/
def abbrevGuardOk (rev : List Char) : Bool :=
  !(revEndsWith rev "Dott".data || revEndsWith rev "dott".data
    || revEndsWith rev "Sig".data || revEndsWith rev "sig".data
    || revEndsWith rev "Prof".data || revEndsWith rev "prof".data
    || revEndsWith rev "Ing".data || revEndsWith rev "ing".data
    || revEndsWith rev "Avv".data || revEndsWith rev "avv".data
    || revEndsWith rev "Gen".data || revEndsWith rev "gen".data
    || revEndsWith rev "Ecc".data || revEndsWith rev "ecc".data
    || revEndsWith rev "Es".data || revEndsWith rev "es".data)

/- The first alternative of _SENTENCE_RE / _CLAUSE_RE (agent.py lines
25-26): the two characters before the split position are a non-digit
followed by a period, and no abbreviation guard fires. -/
def dotBoundary (rev : List Char) : Bool :=
  match rev with
  | p :: d :: _ => p == '.' && !isPyDigit d && abbrevGuardOk rev
  | _ => false

/- The second alternative of _SENTENCE_RE: the character before the split
position is a sentence-final ! or ?. -/
def sentencePunct (rev : List Char) : Bool :=
  match rev with
  | c :: _ => c == '!' || c == '?'
  | [] => false

/- The second alternative of _CLAUSE_RE: ! ? ; : or , before the split
position. -/
def clausePunct (rev : List Char) : Bool :=
  match rev with
  | c :: _ => c == '!' || c == '?' || c == ';' || c == ':' || c == ','
  | [] => false

def sentenceBranch (rev : List Char) : Bool :=
  dotBoundary rev || sentencePunct rev

def clauseBranch (rev : List Char) : Bool :=
  dotBoundary rev || clausePunct rev

/- Length of the regex match starting at the current position: the
(zero-width) lookbehind alternative must hold on the consumed text and a
greedy nonempty whitespace run is consumed; 0 means no match here. -/
def boundaryWs (branch : List Char → Bool) (rev rest : List Char) : Nat :=
  let ws := rest.takeWhile isPySpace
  if ws.length ≠ 0 ∧ branch rev then ws.length else 0

/- re.split scanning left to right: revLeft is the consumed part of the
current piece in reverse; at a match the piece is emitted and scanning
resumes after the consumed whitespace. The fuel argument (instantiated
with the text length, which every run stays within since a match consumes
at least one character) keeps the recursion structural; an exhausted-fuel
step returns the remaining text unsplit. -/
def reSplitAux (branch : List Char → Bool) : Nat → List Char → List Char → List (List Char)
  | _, revLeft, [] => [revLeft.reverse]
  | 0, revLeft, l => [revLeft.reverse ++ l]
  | fuel + 1, revLeft, c :: rest =>
    let n := boundaryWs branch revLeft (c :: rest)
    if n = 0 then reSplitAux branch fuel (c :: revLeft) rest
    else revLeft.reverse :: reSplitAux branch fuel [] ((c :: rest).drop n)

/- re.split with maxsplit=1: stop after the first match. -/
def reSplitOnceAux (branch : List Char → Bool) : List Char → List Char → List (List Char)
  | revLeft, [] => [revLeft.reverse]
  | revLeft, c :: rest =>
    let n := boundaryWs branch revLeft (c :: rest)
    if n = 0 then reSplitOnceAux branch (c :: revLeft) rest
    else [revLeft.reverse, (c :: rest).drop n]

/- _SENTENCE_RE.split(buffer) (agent.py line 25). -/
def sentenceSplit (s : String) : List String :=
  (reSplitAux sentenceBranch s.data.length [] s.data).map String.mk

/- _CLAUSE_RE.split(buffer) (agent.py line 26). -/
def clauseSplit (s : String) : List String :=
  (reSplitAux clauseBranch s.data.length [] s.data).map String.mk

/- _CLAUSE_RE.split(buffer, maxsplit=1). -/
def clauseSplitOnce (s : String) : List String :=
  (reSplitOnceAux clauseBranch [] s.data).map String.mk

/- Length of a _MARKDOWN_BLOCK_RE match at a line-start position
(agent.py line 34): optional whitespace, then 1-6 hashes, a bullet, or a
digit run with a period — each followed by at least one whitespace
character, all runs greedy. None when no alternative matches here. -/
def blockMatchLen (l : List Char) : Option Nat :=
  let ws1 := l.takeWhile isPySpace
  let r1 := l.drop ws1.length
  let hs := r1.takeWhile (fun c => c == '#')
  let hsWs := (r1.drop hs.length).takeWhile isPySpace
  if 1 ≤ hs.length ∧ hs.length ≤ 6 ∧ 1 ≤ hsWs.length then
    some (ws1.length + hs.length + hsWs.length)
  else
    let bulletOk :=
      match r1 with
      | c :: c2 :: _ => (c == '-' || c == '*' || c == '+') && isPySpace c2
      | _ => false
    if bulletOk then
      some (ws1.length + 1 + ((r1.drop 1).takeWhile isPySpace).length)
    else
      let ds := r1.takeWhile isPyDigit
      match r1.drop ds.length with
      | '.' :: afterDot =>
        let dWs := afterDot.takeWhile isPySpace
        if 1 ≤ ds.length ∧ 1 ≤ dWs.length then
          some (ws1.length + ds.length + 1 + dWs.length)
        else none
      | _ => none

/- _MARKDOWN_BLOCK_RE.sub applied by scanning the text; the MULTILINE
anchor restricts matches to position 0 and positions after a newline.
Fuel (instantiated with the text length) keeps recursion structural;
every match consumes at least one character so fuel never runs out. -/
def blockStripAux : Nat → Bool → List Char → List Char
  | _, _, [] => []
  | 0, _, l => l
  | fuel + 1, atLineStart, c :: cs =>
    if atLineStart then
      match blockMatchLen (c :: cs) with
      | some n =>
        blockStripAux fuel (((c :: cs).take n).getLastD ' ' == '\n') ((c :: cs).drop n)
      | none => c :: blockStripAux fuel (c == '\n') cs
    else c :: blockStripAux fuel (c == '\n') cs

def blockStrip (l : List Char) : List Char :=
  blockStripAux l.length true l

/- _MARKDOWN_INLINE_RE.sub (agent.py line 31): removing every maximal run
of * _ backtick ~ is removing every occurrence of those characters. -/
def inlineStrip (l : List Char) : List Char :=
  l.filter (fun c => !(c == '*' || c == '_' || c == Char.ofNat 96 || c == '~'))

/- Python str.strip(): drop leading and trailing whitespace. -/
def pyStrip (l : List Char) : List Char :=
  ((l.dropWhile isPySpace).reverse.dropWhile isPySpace).reverse

/- AIAgent._strip_markdown (agent.py lines 353-356). -/
def stripMarkdown (s : String) : String :=
  String.mk (pyStrip (inlineStrip (blockStrip s.data)))

/- _MIN_CLAUSE_LEN (agent.py line 28). -/
def MIN_CLAUSE_LEN : Nat := 20

/- AIAgent._enqueue_parts (agent.py lines 359-365): the units actually
pushed to the TTS queue — each part stripped of markdown, empties
skipped. -/
def enqueueParts (parts : List String) : List String :=
  parts.filterMap (fun p =>
    let s := stripMarkdown p
    if s.data.isEmpty then none else some s)

/- AIAgent._try_clause_split (agent.py lines 370-384): returns the units
pushed and the remaining buffer. -/
def tryClauseSplit (buffer : String) : List String × String :=
  let clauses := clauseSplit buffer
  let firstClause :=
    if clauses.length > 1 then stripMarkdown (clauses.headD "") else ""
  if firstClause.data.isEmpty ∨ firstClause.data.length < MIN_CLAUSE_LEN then
    ([], buffer)
  else
    let remainder := clauseSplitOnce buffer
    ([firstClause], if remainder.length > 1 then remainder.getLastD buffer else buffer)

/- AIAgent._flush_clauses (agent.py lines 337-350): returns the units
pushed to the queue and the new buffer. -/
def flushClauses (buffer : String) : List String × String :=
  let sentences := sentenceSplit buffer
  if sentences.length > 1 then
    (enqueueParts sentences.dropLast, sentences.getLastD buffer)
  else if buffer.data.length ≤ MIN_CLAUSE_LEN * 2 then
    ([], buffer)
  else
    tryClauseSplit buffer

/- ============================================================
   tts.py : synthesis cache
   ============================================================ -/

/- Synthesized audio: (sample list, sample rate). -/
abbrev Audio := List Int × Nat

/- _TTS_CACHE_MAX (tts.py line 28). -/
def TTS_CACHE_MAX : Nat := 64

/- Python str.lower() restricted to ASCII case folding (the cached texts
are plain phrases; Char.toLower matches str.lower on them). -/
def pyLower (s : String) : String :=
  String.mk (s.data.map Char.toLower)

/- TextToSpeech._cache_key (tts.py lines 455-457): text.strip().lower(). -/
def cacheKey (text : String) : String :=
  pyLower (String.mk (pyStrip text.data))

/- The cache dict (insertion-ordered association list with unique keys)
and the _cache_order deque, oldest key first (tts.py lines 56-57). -/
structure TTSCacheState where
  cache : List (String × Audio)
  order : List String
deriving DecidableEq, Repr

/- dict.pop(key, None): remove the (single) binding of the key. -/
def eraseKey (k : String) (l : List (String × Audio)) : List (String × Audio) :=
  l.eraseP (fun p => p.1 == k)

/- TextToSpeech._cache_put (tts.py lines 460-468): no-op when the key is
present; at capacity the order deque's front key is popped and removed
from the dict (the deque mirrors the dict keys, so it is never empty
there — the impossible empty-deque branch leaves the state unchanged);
then the new entry is appended to both. -/
def cachePut (st : TTSCacheState) (k : String) (v : Audio) : TTSCacheState :=
  if (List.lookup k st.cache).isSome then st
  else
    let evicted :=
      if TTS_CACHE_MAX ≤ st.cache.length then
        match st.order with
        | [] => st
        | oldest :: restOrder =>
          { cache := eraseKey oldest st.cache, order := restOrder }
      else st
    { cache := evicted.cache ++ [(k, v)], order := evicted.order ++ [k] }

/- TextToSpeech._synthesize_cached (tts.py lines 311-324): returns the
audio, the new cache state and whether the underlying synthesis engine
was invoked. A hit returns the stored audio (the source hands out a
defensive copy of the same samples) without synthesizing. -/
def synthesizeCached (synth : String → Audio) (st : TTSCacheState) (t : String) :
    Audio × TTSCacheState × Bool :=
  let key := cacheKey t
  match List.lookup key st.cache with
  | some a => (a, st, false)
  | none =>
    let a := synth t
    (a, cachePut st key a, true)

/- Well-formedness tying the order deque to the dict: the deque holds
exactly the dict's keys in insertion order (true initially — both empty —
and preserved by every operation). -/
def cacheWF (st : TTSCacheState) : Prop :=
  st.cache.map Prod.fst = st.order

/- ============================================================
   Theorems for C1 and C2
   ============================================================ -/

/-- C1: for every pair of assistant states S, T, transition_to(T) in state S
changes the current state to T exactly when T is in the TRANSITIONS entry
for S (and then the observers fire and the state really changes, since the
table has no self loops); when T is not in the entry the state is
unchanged and no observer is invoked. -/
theorem c1_transition_to_iff (s t : AssistantState) :
    ((transitionTo s t).1 = t ∧ (transitionTo s t).2 = true ∧ (transitionTo s t).1 ≠ s
      ↔ t ∈ TRANSITIONS s)
    ∧ (t ∉ TRANSITIONS s → transitionTo s t = (s, false)) := by
  cases s <;> cases t <;> simp [transitionTo, TRANSITIONS]

/-- Witness for c1_transition_to_iff: IDLE→LISTENING is applied with the
observers notified, IDLE→SPEAKING is rejected leaving the state IDLE with
no observer notified. -/
theorem c1_transition_to_witness :
    transitionTo AssistantState.IDLE AssistantState.SPEAKING
      = (AssistantState.IDLE, false)
    ∧ transitionTo AssistantState.IDLE AssistantState.LISTENING
      = (AssistantState.LISTENING, true) := by
  refine ⟨(c1_transition_to_iff AssistantState.IDLE AssistantState.SPEAKING).2 (by decide), ?_⟩
  have h := ((c1_transition_to_iff AssistantState.IDLE AssistantState.LISTENING).1.mpr (by decide))
  have h1 := h.1
  have h2 := h.2.1
  cases heq : transitionTo AssistantState.IDLE AssistantState.LISTENING
  rw [heq] at h1 h2
  simp at h1 h2
  rw [h1, h2]

/-- C2 counterexample: a handler fault in state IDLE is NOT converted into a
transition into ERROR — transition_to(ERROR) is rejected from IDLE
(ERROR is not in TRANSITIONS[IDLE]) and the machine stays in IDLE, so
ERROR is not a universal recovery sink in every state. -/
theorem c2_idle_fault_not_error :
    runStep AssistantState.IDLE HandlerResult.raised
      = (AssistantState.IDLE, LoopControl.continueLoop)
    ∧ decide (AssistantState.IDLE = AssistantState.ERROR) = false := by
  constructor <;> rfl

/-- C2 amended: a handler exception is always caught and the run loop
continues; the machine enters ERROR exactly from the states whose
TRANSITIONS entry contains ERROR (LISTENING, PROCESSING, SPEAKING), while
from IDLE and ERROR the implicit transition to ERROR is rejected and the
current state is unchanged. -/
theorem c2_fault_recovery_amended (s : AssistantState) :
    runStep s HandlerResult.raised
      = ((if s ∈ [AssistantState.LISTENING, AssistantState.PROCESSING,
                  AssistantState.SPEAKING] then AssistantState.ERROR else s),
         LoopControl.continueLoop) := by
  cases s <;> rfl

/- ============================================================
   Theorems for C4
   ============================================================ -/

/- Helper: a deque append with maxlen keeps the length within capacity. -/
theorem pushRing_length_le (cap : Nat) (buf : List Frame) (f : Frame)
    (h : buf.length ≤ cap) : (pushRing cap buf f).length ≤ cap := by
  unfold pushRing
  by_cases hgt : (buf ++ [f]).length > cap
  · simp only [hgt, if_pos]
    rw [List.length_drop]
    omega
  · simp only [hgt, if_neg, if_false]
    simp only [List.length_append, List.length_cons, List.length_nil] at hgt ⊢
    omega

/- Helper: appending to a full deque evicts exactly the oldest element. -/
theorem pushRing_full (cap : Nat) (buf : List Frame) (f : Frame)
    (hfull : buf.length = cap) (hpos : 0 < cap) :
    pushRing cap buf f = buf.tail ++ [f] := by
  unfold pushRing
  have hgt : (buf ++ [f]).length > cap := by
    simp [List.length_append, hfull]
  simp only [hgt, if_pos]
  have hdrop : (buf ++ [f]).length - cap = 1 := by
    simp [List.length_append, hfull]
  rw [hdrop]
  cases buf with
  | nil => simp at hfull; omega
  | cons b bs => simp

/-- C4 counterexample: in MUTED mode the audio callback drops the frame
entirely — it is NOT appended to the ring history and NOT appended to
the recording buffer even though is_recording is true, contradicting the
claim that buffering happens on every frame and route mode governs only
listener dispatch. -/
theorem c4_muted_frame_not_buffered :
    audioCallback 100 ⟨[], [], true, AudioRouteMode.MUTED⟩ [1000]
      = (⟨[], [], true, AudioRouteMode.MUTED⟩, Dispatch.dropped) := by
  rfl

/-- C4 amended: the MUTED route drops the frame before any buffering; in
the other modes the frame is appended to the ring history (evicting the
oldest frame when the deque is at capacity) and, when is_recording, to
the recording buffer, and dispatch goes to the stop-word listener set in
STOP_ONLY mode and to all general listeners in NORMAL mode. -/
theorem c4_audio_callback_amended (cap : Nat) (st : CaptureState) (f : Frame) :
    (st.routeMode = AudioRouteMode.MUTED →
      audioCallback cap st f = (st, Dispatch.dropped))
    ∧ (st.routeMode ≠ AudioRouteMode.MUTED →
        (audioCallback cap st f).1.ringBuffer = pushRing cap st.ringBuffer f
        ∧ (audioCallback cap st f).1.recordingBuffer
            = (if st.isRecording then st.recordingBuffer ++ [f] else st.recordingBuffer)
        ∧ (audioCallback cap st f).2
            = (if st.routeMode = AudioRouteMode.STOP_ONLY then Dispatch.stopListeners
               else Dispatch.allListeners))
    ∧ (st.ringBuffer.length ≤ cap → (audioCallback cap st f).1.ringBuffer.length ≤ cap)
    ∧ (st.routeMode ≠ AudioRouteMode.MUTED → st.ringBuffer.length = cap → 0 < cap →
        (audioCallback cap st f).1.ringBuffer = st.ringBuffer.tail ++ [f]) := by
  obtain ⟨ring, rec, isRec, mode⟩ := st
  refine ⟨?_, ?_, ?_, ?_⟩
  · intro h
    simp only at h
    simp [audioCallback, h]
  · intro h
    simp only at h
    cases mode <;> simp_all [audioCallback]
  · intro h
    cases mode <;>
      simp [audioCallback, pushRing_length_le cap ring f h, h]
  · intro h hfull hpos
    simp only at h
    cases mode <;> simp_all [audioCallback, pushRing_full cap ring f hfull hpos]

/-- Witness for c4_audio_callback_amended: a MUTED frame is dropped with
state unchanged; a NORMAL frame into a full 2-frame ring evicts the
oldest frame and keeps the ring within capacity. -/
theorem c4_audio_callback_witness :
    audioCallback 2 ⟨[[1], [2]], [], true, AudioRouteMode.MUTED⟩ [3]
        = (⟨[[1], [2]], [], true, AudioRouteMode.MUTED⟩, Dispatch.dropped)
    ∧ (audioCallback 2 ⟨[[1], [2]], [], true, AudioRouteMode.NORMAL⟩ [3]).1.ringBuffer
        = [[2], [3]]
    ∧ (audioCallback 2 ⟨[[1], [2]], [], true, AudioRouteMode.NORMAL⟩ [3]).1.ringBuffer.length ≤ 2 := by
  refine ⟨(c4_audio_callback_amended 2 ⟨[[1], [2]], [], true, AudioRouteMode.MUTED⟩ [3]).1 rfl,
          ?_,
          (c4_audio_callback_amended 2 ⟨[[1], [2]], [], true, AudioRouteMode.NORMAL⟩ [3]).2.2.1 (by decide)⟩
  have h := (c4_audio_callback_amended 2 ⟨[[1], [2]], [], true, AudioRouteMode.NORMAL⟩ [3]).2.2.2
    (by decide) (by rfl) (by decide)
  rw [h]
  rfl

/- ============================================================
   Theorems for C5 and C6
   ============================================================ -/

/- Helper: one process_frame step never raises the energy threshold and
keeps it nonnegative, for a decay rate between 0 and 1. -/
theorem processFrame_threshold_step (cfg : VADCfg) (st : VADState) (now : ℚ)
    (sp : Bool) (rms : ℚ)
    (h0 : 0 ≤ cfg.energyDecayRate) (h1 : cfg.energyDecayRate ≤ 1)
    (hst : 0 ≤ st.energyThreshold) :
    (processFrame cfg st now sp rms).energyThreshold ≤ st.energyThreshold
    ∧ 0 ≤ (processFrame cfg st now sp rms).energyThreshold := by
  have hpow : cfg.energyDecayRate ^ (now - st.lastDecayTime).floor.toNat ≤ 1 :=
    pow_le_one₀ h0 h1
  have hpow0 : 0 ≤ cfg.energyDecayRate ^ (now - st.lastDecayTime).floor.toNat :=
    pow_nonneg h0 _
  have hmul : st.energyThreshold * cfg.energyDecayRate ^ (now - st.lastDecayTime).floor.toNat
      ≤ st.energyThreshold := mul_le_of_le_one_right hst hpow
  have hmul0 : 0 ≤ st.energyThreshold * cfg.energyDecayRate ^ (now - st.lastDecayTime).floor.toNat :=
    mul_nonneg hst hpow0
  unfold processFrame
  dsimp only
  split_ifs <;> simp_all

/- Helper: over any sequence of frames the threshold is monotonically
non-increasing and stays nonnegative. -/
theorem processFrames_threshold_le (cfg : VADCfg) (st : VADState)
    (frames : List (ℚ × Bool × ℚ))
    (h0 : 0 ≤ cfg.energyDecayRate) (h1 : cfg.energyDecayRate ≤ 1)
    (hst : 0 ≤ st.energyThreshold) :
    (processFrames cfg st frames).energyThreshold ≤ st.energyThreshold
    ∧ 0 ≤ (processFrames cfg st frames).energyThreshold := by
  induction frames generalizing st with
  | nil => exact ⟨le_refl _, hst⟩
  | cons f rest ih =>
    have hstep := processFrame_threshold_step cfg st f.1 f.2.1 f.2.2 h0 h1 hst
    have hrest := ih (processFrame cfg st f.1 f.2.1 f.2.2) hstep.2
    exact ⟨le_trans hrest.1 hstep.1, hrest.2⟩

/-- C5: while the VAD is armed with a positive energy threshold and at
least one whole second has elapsed since the last decay, process_frame
multiplies the threshold by the decay rate raised to the number of
elapsed whole seconds; between explicit set_energy_threshold calls the
threshold is therefore monotonically non-increasing and stays
nonnegative (for a decay rate between 0 and 1); and starting from
threshold 100 at time 0 with decay rate 0.95, a frame processed after
two whole elapsed seconds leaves the threshold at 100 * 0.95^2 = 90.25. -/
theorem c5_energy_decay :
    (∀ (cfg : VADCfg) (st : VADState) (now : ℚ) (sp : Bool) (rms : ℚ),
      st.isActive = true → 0 < st.energyThreshold → 1 ≤ now - st.lastDecayTime →
      (processFrame cfg st now sp rms).energyThreshold
        = st.energyThreshold * cfg.energyDecayRate ^ (now - st.lastDecayTime).floor.toNat)
    ∧ (∀ (cfg : VADCfg) (st : VADState) (frames : List (ℚ × Bool × ℚ)),
        0 ≤ cfg.energyDecayRate → cfg.energyDecayRate ≤ 1 → 0 ≤ st.energyThreshold →
        (processFrames cfg st frames).energyThreshold ≤ st.energyThreshold
        ∧ 0 ≤ (processFrames cfg st frames).energyThreshold)
    ∧ (processFrame ⟨1.5, 30, (0.95 : ℚ)⟩
        (setEnergyThreshold (vadStart ⟨false, false, 0, 0, 0, 0, false⟩ 0) 0 100)
        2 false 0).energyThreshold = (90.25 : ℚ) := by
  refine ⟨?_, fun cfg st frames h0 h1 hst => processFrames_threshold_le cfg st frames h0 h1 hst, ?_⟩
  · intro cfg st now sp rms hact hpos helap
    unfold processFrame
    dsimp only
    split_ifs <;> simp_all
  · norm_num [processFrame, setEnergyThreshold, vadStart,
      show (Rat.floor (2 : ℚ)).toNat = 2 from rfl]

/-- Witness for c5_energy_decay: concrete instantiation of the decay
formula and of the monotonicity bound at threshold 100, decay rate 0.95,
two elapsed seconds. -/
theorem c5_energy_decay_witness :
    (processFrame ⟨1.5, 30, (0.95 : ℚ)⟩
        (setEnergyThreshold (vadStart ⟨false, false, 0, 0, 0, 0, false⟩ 0) 0 100)
        2 false 0).energyThreshold
      = 100 * (0.95 : ℚ) ^ ((2 : ℚ) - 0).floor.toNat
    ∧ (processFrames ⟨1.5, 30, (0.95 : ℚ)⟩
        (setEnergyThreshold (vadStart ⟨false, false, 0, 0, 0, 0, false⟩ 0) 0 100)
        [(2, false, 0)]).energyThreshold ≤ 100 := by
  constructor
  · exact c5_energy_decay.1 ⟨1.5, 30, (0.95 : ℚ)⟩
      (setEnergyThreshold (vadStart ⟨false, false, 0, 0, 0, 0, false⟩ 0) 0 100)
      2 false 0 (by rfl) (by norm_num [setEnergyThreshold, vadStart])
      (by norm_num [setEnergyThreshold, vadStart])
  · exact (c5_energy_decay.2.1 ⟨1.5, 30, (0.95 : ℚ)⟩
      (setEnergyThreshold (vadStart ⟨false, false, 0, 0, 0, 0, false⟩ 0) 0 100)
      [(2, false, 0)] (by norm_num) (by norm_num)
      (by norm_num [setEnergyThreshold, vadStart])).1

/- Helper: one process_frame step never clears the speech_detected flag. -/
theorem processFrame_speech_mono (cfg : VADCfg) (st : VADState) (now : ℚ)
    (sp : Bool) (rms : ℚ) (h : st.speechDetected = true) :
    (processFrame cfg st now sp rms).speechDetected = true := by
  unfold processFrame
  dsimp only
  split_ifs <;> simp_all

/-- C6: within one armed session the had_speech flag is monotone — once
speech_detected is true it stays true across any further processed frames
and across stop() and set_energy_threshold(), and only the next start()
resets it; moreover as soon as a frame is processed with elapsed session
time above max_recording_sec while active, process_frame sets the
speech_ended latch (unblocking wait_for_speech_end) and deactivates,
whatever the frame's speech classification. -/
theorem c6_had_speech_latch :
    (∀ (cfg : VADCfg) (st : VADState) (frames : List (ℚ × Bool × ℚ)),
      st.speechDetected = true → hadSpeech (processFrames cfg st frames) = true)
    ∧ (∀ st : VADState, hadSpeech (vadStop st) = hadSpeech st)
    ∧ (∀ (st : VADState) (now thr : ℚ),
        hadSpeech (setEnergyThreshold st now thr) = hadSpeech st)
    ∧ (∀ (st : VADState) (now : ℚ), hadSpeech (vadStart st now) = false)
    ∧ (∀ (cfg : VADCfg) (st : VADState) (now : ℚ) (sp : Bool) (rms : ℚ),
        st.isActive = true → cfg.maxRecordingSec < now - st.startTime →
        speechEndLatch (processFrame cfg st now sp rms) = true
        ∧ (processFrame cfg st now sp rms).isActive = false) := by
  refine ⟨?_, fun st => rfl, fun st now thr => rfl, fun st now => rfl, ?_⟩
  · intro cfg st frames h
    unfold hadSpeech
    induction frames generalizing st with
    | nil => exact h
    | cons f rest ih =>
      exact ih (processFrame cfg st f.1 f.2.1 f.2.2)
        (processFrame_speech_mono cfg st f.1 f.2.1 f.2.2 h)
  · intro cfg st now sp rms hact hmax
    unfold processFrame speechEndLatch
    dsimp only
    split_ifs <;> simp_all

/-- Witness for c6_had_speech_latch: a session that already saw speech
keeps had_speech true after one more (silent) frame, and a frame
processed 31 seconds into a session with a 30-second max-recording limit
sets the end latch and deactivates even though the frame is classified
as speech. -/
theorem c6_had_speech_latch_witness :
    hadSpeech (processFrames ⟨1.5, 30, 0.98⟩ ⟨true, true, 0, 0, 0, 0, false⟩
        [(1, false, 0)]) = true
    ∧ speechEndLatch (processFrame ⟨1.5, 30, 0.98⟩ ⟨true, false, 0, 0, 0, 0, false⟩
        31 true 0) = true := by
  constructor
  · exact c6_had_speech_latch.1 ⟨1.5, 30, 0.98⟩ ⟨true, true, 0, 0, 0, 0, false⟩
      [(1, false, 0)] (by rfl)
  · exact (c6_had_speech_latch.2.2.2.2 ⟨1.5, 30, 0.98⟩ ⟨true, false, 0, 0, 0, 0, false⟩
      31 true 0 (by rfl) (by norm_num)).1

/- ============================================================
   Theorems for C3, C9, C10
   ============================================================ -/

/-- C3 (code bug): barge-in cannot behave as claimed because the LLM branch
of the PROCESSING handler raises AttributeError on
self._audio.monitor_only() — a method AudioCapture does not define —
before playback or the interrupt monitor ever start; the exception is
caught, the generic apology is spoken, and the handler returns SPEAKING
with the interrupted flag false, for every possible sequence of wake-word
poll results. -/
theorem c3_processing_attribute_error (polls : List Bool) :
    handleProcessingLLM polls
      = { nextState := AssistantState.SPEAKING, ttsInterrupted := false,
          spokeApology := true, monitorStarted := false, playbackStopped := false }
    ∧ getMethod audioCaptureMethods "monitor_only" = none := by
  have h : getMethod audioCaptureMethods "monitor_only" = none := by decide
  refine ⟨?_, h⟩
  unfold handleProcessingLLM processStreamingStart
  rw [h]

/-- C9 (code bug): the interrupt monitor does not reset the wake-word model
every 10 empty polls — on the 10th consecutive empty poll it calls
self._wake_word.reset_model_only(), a method WakeWordDetector does not
define, so the attribute lookup fails and the monitor task dies with
AttributeError instead of resetting and continuing. -/
theorem c9_monitor_reset_attribute_error :
    monitorInterrupt (List.replicate 10 false) 0 = MonitorOutcome.attributeError
    ∧ getMethod wakeWordDetectorMethods "reset_model_only" = none := by
  constructor <;> decide

/- Helper: no operation other than start() ever clears the stop-word
detection latch. -/
theorem stopWordApply_detected_mono (st : StopWordState) (op : StopWordOp)
    (h : st.detected = true) : (stopWordApply st op).detected = true := by
  cases op with
  | stopAgain => rfl
  | frame rms hit =>
    show (stopWordProcessFrame st rms hit).detected = true
    unfold stopWordProcessFrame
    split_ifs <;> simp [h]

/-- C10: after StopWordListener.stop() every subsequent wait_for_detection
returns True immediately — stop() sets the detection latch and no further
stop() or process_frame() clears it; only the next start() resets the
latch; and the class defines no shutdown() method that could make waiters
return False. -/
theorem c10_stop_latch (st : StopWordState) (ops : List StopWordOp) (thr : ℚ) :
    stopWordWaitForDetection (stopWordApplyAll (stopWordStop st) ops) = true
    ∧ getMethod stopWordListenerMethods "shutdown" = none
    ∧ (stopWordStart st thr).detected = false := by
  refine ⟨?_, by decide, rfl⟩
  have hbase : (stopWordStop st).detected = true := rfl
  unfold stopWordWaitForDetection stopWordApplyAll
  generalize stopWordStop st = st0 at hbase
  induction ops generalizing st0 with
  | nil => exact hbase
  | cons op rest ih =>
    exact ih (stopWordApply st0 op) (stopWordApply_detected_mono st0 op hbase)

/- ============================================================
   Theorems for C7
   ============================================================ -/

/- Helper: text free of sentence-terminal punctuation satisfies no
lookbehind alternative of _SENTENCE_RE. -/
theorem sentenceBranch_eq_false (rev : List Char)
    (h : ∀ c ∈ rev, c ≠ '.' ∧ c ≠ '!' ∧ c ≠ '?') :
    sentenceBranch rev = false := by
  unfold sentenceBranch dotBoundary sentencePunct
  cases rev with
  | nil => rfl
  | cons c rest =>
    have hc := h c (List.mem_cons_self c rest)
    cases rest with
    | nil => simp [hc.2.1, hc.2.2]
    | cons d rest2 => simp [hc.1, hc.2.1, hc.2.2]

/- Helper: _SENTENCE_RE.split leaves terminal-punctuation-free text in one
piece. -/
theorem reSplitAux_no_match (fuel : Nat) (revLeft rest : List Char)
    (hrev : ∀ c ∈ revLeft, c ≠ '.' ∧ c ≠ '!' ∧ c ≠ '?')
    (hrest : ∀ c ∈ rest, c ≠ '.' ∧ c ≠ '!' ∧ c ≠ '?') :
    reSplitAux sentenceBranch fuel revLeft rest = [revLeft.reverse ++ rest] := by
  induction fuel generalizing revLeft rest with
  | zero =>
    cases rest with
    | nil => simp [reSplitAux]
    | cons c cs => rfl
  | succ fuel ih =>
    cases rest with
    | nil => simp [reSplitAux]
    | cons c cs =>
      have hb : sentenceBranch revLeft = false := sentenceBranch_eq_false revLeft hrev
      have hn : boundaryWs sentenceBranch revLeft (c :: cs) = 0 := by
        unfold boundaryWs
        simp [hb]
      have hrest2 : ∀ x ∈ cs, x ≠ '.' ∧ x ≠ '!' ∧ x ≠ '?' := by
        intro x hx
        exact hrest x (List.mem_cons_of_mem c hx)
      have hrev2 : ∀ x ∈ c :: revLeft, x ≠ '.' ∧ x ≠ '!' ∧ x ≠ '?' := by
        intro x hx
        rcases List.mem_cons.mp hx with hx | hx
        · exact hx ▸ hrest c (List.mem_cons_self c cs)
        · exact hrev x hx
      simp only [reSplitAux, hn, if_pos]
      rw [ih (c :: revLeft) cs hrev2 hrest2]
      simp

/-- C7: feeding the buffer "Prima frase. Seconda frase" to the streaming
segmenter emits exactly the unit "Prima frase." and leaves
"Seconda frase" buffered; and any buffer with no terminal punctuation
(no period, exclamation or question mark) shorter than the minimum
clause length is retained whole, emitting no unit. -/
theorem c7_sentence_segmentation :
    flushClauses "Prima frase. Seconda frase" = (["Prima frase."], "Seconda frase")
    ∧ (∀ s : String, (∀ c ∈ s.data, c ≠ '.' ∧ c ≠ '!' ∧ c ≠ '?') →
        s.data.length < MIN_CLAUSE_LEN → flushClauses s = ([], s)) := by
  constructor
  · rfl
  · intro s hterm hlen
    have hsplit : sentenceSplit s = [s] := by
      unfold sentenceSplit
      rw [reSplitAux_no_match s.data.length [] s.data (by simp) hterm]
      simp
    have h40 : s.data.length ≤ MIN_CLAUSE_LEN * 2 := by
      unfold MIN_CLAUSE_LEN at hlen ⊢
      omega
    unfold flushClauses
    rw [hsplit]
    simp [h40]
    intro hgt
    have hsl : s.length = s.data.length := rfl
    omega

/-- Witness for c7_sentence_segmentation: the four-character buffer "ciao"
has no terminal punctuation and is below the minimum clause length, so it
stays buffered whole with no unit emitted. -/
theorem c7_sentence_segmentation_witness :
    flushClauses "ciao" = ([], "ciao") := by
  exact c7_sentence_segmentation.2 "ciao" (by decide) (by decide)

/- ============================================================
   Theorems for C8
   ============================================================ -/

/- Helper: a key absent from an association list is found after being
appended at the back. -/
theorem lookup_append_self (k : String) (v : Audio) (l : List (String × Audio))
    (h : List.lookup k l = none) : List.lookup k (l ++ [(k, v)]) = some v := by
  induction l with
  | nil => simp
  | cons p rest ih =>
    obtain ⟨a, b⟩ := p
    rw [List.lookup] at h
    cases hka : k == a with
    | true =>
      rw [hka] at h
      simp at h
    | false =>
      rw [hka] at h
      rw [List.cons_append, List.lookup, hka]
      exact ih h

/- Helper: erasing some other binding cannot make an absent key present. -/
theorem lookup_eraseKey_none (k o : String) (l : List (String × Audio))
    (h : List.lookup k l = none) : List.lookup k (eraseKey o l) = none := by
  induction l with
  | nil => simp [eraseKey]
  | cons p rest ih =>
    obtain ⟨a, b⟩ := p
    rw [List.lookup] at h
    cases hka : k == a with
    | true => rw [hka] at h; simp at h
    | false =>
      rw [hka] at h
      unfold eraseKey at ih ⊢
      rw [List.eraseP_cons]
      cases hao : ((a, b).1 == o) with
      | true => simpa using h
      | false =>
        simp only [cond_false]
        rw [List.lookup, hka]
        exact ih h

/- Helper: after a miss is stored, looking the key up hits the stored
audio. -/
theorem lookup_cachePut_self (st : TTSCacheState) (k : String) (v : Audio)
    (h : List.lookup k st.cache = none) :
    List.lookup k (cachePut st k v).cache = some v := by
  unfold cachePut
  rw [h]
  simp only [Option.isSome_none, Bool.false_eq_true, if_false]
  by_cases hc : TTS_CACHE_MAX ≤ st.cache.length
  · rw [if_pos hc]
    cases horder : st.order with
    | nil => exact lookup_append_self k v st.cache h
    | cons oldest restOrder =>
      exact lookup_append_self k v _ (lookup_eraseKey_none k oldest st.cache h)
  · rw [if_neg hc]
    exact lookup_append_self k v st.cache h

/- Helper: when the order deque mirrors the dict keys and its front is o,
removing o removes exactly the dict's first entry. -/
theorem eraseKey_head (l : List (String × Audio)) (o : String) (rest : List String)
    (h : l.map Prod.fst = o :: rest) :
    eraseKey o l = l.tail ∧ (l.tail).map Prod.fst = rest ∧ l.length = rest.length + 1 := by
  cases l with
  | nil => simp at h
  | cons p cr =>
    obtain ⟨a, b⟩ := p
    simp only [List.map_cons, List.cons.injEq] at h
    refine ⟨?_, by simpa using h.2, by simp [← h.2, List.length_map]⟩
    unfold eraseKey
    rw [List.eraseP_cons]
    simp [h.1]

/- Helper: _cache_put keeps the order deque mirroring the dict keys. -/
theorem cachePut_wf (st : TTSCacheState) (k : String) (v : Audio)
    (hwf : cacheWF st) : cacheWF (cachePut st k v) := by
  unfold cachePut
  split_ifs with h1 h2
  · exact hwf
  · cases horder : st.order with
    | nil =>
      unfold cacheWF at hwf ⊢
      simp [horder, hwf]
    | cons oldest restOrder =>
      unfold cacheWF at hwf ⊢
      rw [horder] at hwf
      obtain ⟨he, hm, _⟩ := eraseKey_head st.cache oldest restOrder hwf
      simp [he, hm]
  · unfold cacheWF at hwf ⊢
    simp [hwf]

/- Helper: _cache_put never grows the dict beyond the capacity. -/
theorem cachePut_length_le (st : TTSCacheState) (k : String) (v : Audio)
    (hwf : cacheWF st) (hlen : st.cache.length ≤ TTS_CACHE_MAX) :
    (cachePut st k v).cache.length ≤ TTS_CACHE_MAX := by
  unfold cachePut
  split_ifs with h1 h2
  · exact hlen
  · cases horder : st.order with
    | nil =>
      exfalso
      unfold cacheWF at hwf
      rw [horder] at hwf
      rw [List.map_eq_nil_iff] at hwf
      rw [hwf] at h2
      simp [TTS_CACHE_MAX] at h2
    | cons oldest restOrder =>
      unfold cacheWF at hwf
      rw [horder] at hwf
      obtain ⟨he, _, hl⟩ := eraseKey_head st.cache oldest restOrder hwf
      simp only [he]
      have htail : st.cache.tail.length = st.cache.length - 1 := by
        cases st.cache <;> simp
      simp only [List.length_append, List.length_cons, List.length_nil, htail]
      omega
  · simp only [List.length_append, List.length_cons, List.length_nil]
    omega

/-- C8: two synthesis requests whose texts normalize (strip + lowercase) to
the same key perform only one underlying synthesis call — the second is a
cache hit returning exactly the audio held for the first, leaving the
cache untouched; the cache dict never exceeds the fixed capacity
_TTS_CACHE_MAX; and an insertion into a full cache evicts exactly the
oldest key (the front of the insertion-order deque) — entries are never
invalidated any other way, since a hit leaves the state unchanged. -/
theorem c8_tts_cache :
    (∀ (synth : String → Audio) (st : TTSCacheState) (t1 t2 : String),
      cacheKey t1 = cacheKey t2 →
      (synthesizeCached synth (synthesizeCached synth st t1).2.1 t2).2.2 = false
      ∧ (synthesizeCached synth (synthesizeCached synth st t1).2.1 t2).1
          = (synthesizeCached synth st t1).1
      ∧ (synthesizeCached synth (synthesizeCached synth st t1).2.1 t2).2.1
          = (synthesizeCached synth st t1).2.1)
    ∧ (∀ (synth : String → Audio) (st : TTSCacheState) (t : String),
        cacheWF st → st.cache.length ≤ TTS_CACHE_MAX →
        (synthesizeCached synth st t).2.1.cache.length ≤ TTS_CACHE_MAX
        ∧ cacheWF (synthesizeCached synth st t).2.1)
    ∧ (∀ (st : TTSCacheState) (k : String) (v : Audio),
        cacheWF st → st.cache.length = TTS_CACHE_MAX →
        List.lookup k st.cache = none →
        (cachePut st k v).cache = st.cache.tail ++ [(k, v)]
        ∧ (cachePut st k v).order = st.order.tail ++ [k]) := by
  refine ⟨?_, ?_, ?_⟩
  · intro synth st t1 t2 hkey
    unfold synthesizeCached
    rw [← hkey]
    cases hcase : List.lookup (cacheKey t1) st.cache with
    | some a => simp [hcase]
    | none =>
      simp only [hcase]
      have hput := lookup_cachePut_self st (cacheKey t1) (synth t1) hcase
      simp [hput]
  · intro synth st t hwf hlen
    cases hcase : List.lookup (cacheKey t) st.cache with
    | some a =>
      simp only [synthesizeCached, hcase]
      exact ⟨hlen, hwf⟩
    | none =>
      simp only [synthesizeCached, hcase]
      exact ⟨cachePut_length_le st (cacheKey t) (synth t) hwf hlen,
             cachePut_wf st (cacheKey t) (synth t) hwf⟩
  · intro st k v hwf hfull hnone
    unfold cachePut
    rw [hnone]
    simp only [Option.isSome_none, Bool.false_eq_true, if_false]
    have hge : TTS_CACHE_MAX ≤ st.cache.length := le_of_eq hfull.symm
    rw [if_pos hge]
    cases horder : st.order with
    | nil =>
      exfalso
      unfold cacheWF at hwf
      rw [horder] at hwf
      rw [List.map_eq_nil_iff] at hwf
      rw [hwf] at hfull
      simp [TTS_CACHE_MAX] at hfull
    | cons oldest restOrder =>
      unfold cacheWF at hwf
      rw [horder] at hwf
      obtain ⟨he, _, _⟩ := eraseKey_head st.cache oldest restOrder hwf
      simp [he]

/-- Witness for c8_tts_cache: with a length-measuring synthesizer and an
empty cache, requesting "Ciao " and then " ciao" (same normalized key)
synthesizes only once — the second call reports no synthesis — and the
resulting cache stays within capacity; and inserting a fresh key into a
concrete full 64-entry cache evicts exactly the front of the order
deque. -/
theorem c8_tts_cache_witness :
    (synthesizeCached (fun t => ([(t.data.length : Int)], 22050))
      (synthesizeCached (fun t => ([(t.data.length : Int)], 22050))
        ⟨[], []⟩ "Ciao ").2.1 " ciao").2.2 = false
    ∧ (synthesizeCached (fun t => ([(t.data.length : Int)], 22050))
        ⟨[], []⟩ "Ciao ").2.1.cache.length ≤ TTS_CACHE_MAX
    ∧ (cachePut
        ⟨(List.range 64).map (fun i => (String.mk [Char.ofNat (65 + i)], ([], 0))),
         (List.range 64).map (fun i => String.mk [Char.ofNat (65 + i)])⟩
        "!" ([], 0)).order
      = ((List.range 64).map (fun i => String.mk [Char.ofNat (65 + i)])).tail ++ ["!"] := by
  refine ⟨(c8_tts_cache.1 (fun t => ([(t.data.length : Int)], 22050))
            ⟨[], []⟩ "Ciao " " ciao" (by decide)).1,
          (c8_tts_cache.2.1 (fun t => ([(t.data.length : Int)], 22050))
            ⟨[], []⟩ "Ciao " rfl (by decide)).1,
          (c8_tts_cache.2.2
            ⟨(List.range 64).map (fun i => (String.mk [Char.ofNat (65 + i)], ([], 0))),
             (List.range 64).map (fun i => String.mk [Char.ofNat (65 + i)])⟩
            "!" ([], 0) (by unfold cacheWF; decide) (by decide) (by decide)).2⟩
